import Mathlib

/-
Verification of the mkjson JSON-wrapper library (measurement-kit/mkjson).

The library wraps an nlohmann/json document tree behind a move-only handle
type `JSON` with `Result`-reporting accessors, plus pointer-addressed
generic helpers (`swap_value_at`, `movein`).  We shallowly embed the
document tree, the handle operations (from src/unit-tests.cpp, which embeds
mkjson.hpp's implementation) and the pointer helpers (from src/README.md,
which embeds the template half of mkjson.hpp).  Strings are byte sequences
(`List Nat`, each entry a byte value); the external collaborators (the
UTF-8 validity predicate and base64 encoder of mkdata, and the nlohmann
engine's pointer/serialization behavior) are modelled from the spec.
-/

namespace MkJson

/-- Byte strings: a C++ std::string is a sequence of bytes. -/
abbrev Bytes := List Nat

/-- F64 stands in for a C++ double payload.  The claims under verification
only store, move and compare float payloads; no floating-point arithmetic
or text formatting is modelled bit-exactly. -/
structure F64 where
  bits : Nat
deriving DecidableEq

/-- Kind is the JSON type tag of a node (nlohmann value_t, with the two
integral variants collapsed into int64 as the wrapper observes them). -/
inductive Kind where
  | null
  | boolean
  | int64
  | float64
  | str
  | arr
  | obj
deriving DecidableEq

/-- JVal is the nlohmann::json document tree: null, boolean, 64-bit
integer, double, string (bytes), array, or object (insertion-unique keyed
entries; nlohmann stores objects as std::map, and every claim observes
objects only through key lookup/erase/insert, which the association-list
operations below model). -/
inductive JVal where
  | null : JVal
  | boolean : Bool → JVal
  | int64 : Int → JVal
  | float64 : F64 → JVal
  | str : Bytes → JVal
  | arr : List JVal → JVal
  | obj : List (Bytes × JVal) → JVal

/-- kind reads off the type tag of a tree node. -/
def JVal.kind : JVal → Kind
  | .null => .null
  | .boolean _ => .boolean
  | .int64 _ => .int64
  | .float64 _ => .float64
  | .str _ => .str
  | .arr _ => .arr
  | .obj _ => .obj

/-- Result mirrors mk::json::Result: a success flag, a failure
message, and a value that is default-constructed unless set. -/
structure Result (T : Type) where
  good : Bool
  failure : String
  value : T

/-- ResultV mirrors the Result specialization for void: flag and message only. -/
structure ResultV where
  good : Bool
  failure : String

/-- ok builds a successful Result carrying a value, as the C++ code does by
default-constructing Result and assigning value. -/
def ok {T : Type} (value : T) : Result T := ⟨true, "", value⟩

/-- failR builds a failed Result: good is false, failure is the message and
value stays at its default, exactly as the catch branches in the source do. -/
def failR {T : Type} (msg : String) (d : T) : Result T := ⟨false, msg, d⟩

/-- lookupKey is std::map / nlohmann object key lookup over the
association list (first matching entry; entries are key-unique in any tree
the library builds). -/
def lookupKey : List (Bytes × JVal) → Bytes → Option JVal
  | [], _ => none
  | (k, w) :: rest, key => if k = key then some w else lookupKey rest key

/-- setKey models nlohmann object operator-bracket assignment: replace the
entry at the key when present, insert the key otherwise. -/
def setKey : List (Bytes × JVal) → Bytes → JVal → List (Bytes × JVal)
  | [], key, v => [(key, v)]
  | (k, w) :: rest, key, v =>
      if k = key then (k, v) :: rest else (k, w) :: setKey rest key v

/-- eraseKey models nlohmann object erase(key): drop the entry at the key. -/
def eraseKey : List (Bytes × JVal) → Bytes → List (Bytes × JVal)
  | [], _ => []
  | (k, w) :: rest, key =>
      if k = key then rest else (k, w) :: eraseKey rest key

namespace JSON

/-- is_array delegates to the tree node type tag (nlohmann is_array). -/
def is_array (j : JVal) : Bool := j.kind = .arr

/-- is_boolean delegates to the tree node type tag (nlohmann is_boolean). -/
def is_boolean (j : JVal) : Bool := j.kind = .boolean

/-- is_float64 delegates to nlohmann is_number_float. -/
def is_float64 (j : JVal) : Bool := j.kind = .float64

/-- is_int64 delegates to nlohmann is_number_integer. -/
def is_int64 (j : JVal) : Bool := j.kind = .int64

/-- is_null delegates to nlohmann is_null. -/
def is_null (j : JVal) : Bool := j.kind = .null

/-- is_object delegates to nlohmann is_object. -/
def is_object (j : JVal) : Bool := j.kind = .obj

/-- is_string delegates to nlohmann is_string. -/
def is_string (j : JVal) : Bool := j.kind = .str

/-- moveConstruct models JSON(JSON&& other): the new handle is built as a
fresh null and its impl pointer is swapped with the source, so the result
is (new this, new other) = (the source tree, null). -/
def moveConstruct (other : JVal) : JVal × JVal := (other, JVal.null)

/-- moveAssign models operator=(JSON&& other): the two impl pointers are
swapped, so the result is (new this, new other) = (the source tree, the
previous target tree).  Note the source is not nulled; it receives the
target's old tree. -/
def moveAssign (self : JVal) (other : JVal) : JVal × JVal := (other, self)

/-- get_value_at: at(key) on a non-object throws (type error, caught into
a failure); a missing key throws out_of_range (caught into a failure);
otherwise the node is moved out into the result and the key erased.
Returns (result, receiver afterwards). -/
def get_value_at (self : JVal) (key : Bytes) : Result JVal × JVal :=
  match self with
  | .obj kvs =>
      match lookupKey kvs key with
      | some v => (ok v, .obj (eraseKey kvs key))
      | none => (failR "key not found" .null, self)
  | _ => (failR "cannot use at with this type" .null, self)

/-- get_value_array: get_ptr on a non-array yields nullptr, so fail with a
message and leave the receiver untouched; otherwise each element is
re-wrapped into its own JSON (here: the element list itself) and the
receiver is assigned nullptr.  Returns (result, receiver afterwards). -/
def get_value_array (self : JVal) : Result (List JVal) × JVal :=
  match self with
  | .arr xs => (ok xs, .null)
  | _ => (failR "Not an array" [], self)

/-- get_value_boolean: as get_value_array but for the boolean payload. -/
def get_value_boolean (self : JVal) : Result Bool × JVal :=
  match self with
  | .boolean b => (ok b, .null)
  | _ => (failR "Not a boolean" false, self)

/-- get_value_float64: as get_value_array but for the double payload. -/
def get_value_float64 (self : JVal) : Result F64 × JVal :=
  match self with
  | .float64 x => (ok x, .null)
  | _ => (failR "Not a float64" ⟨0⟩, self)

/-- get_value_int64: as get_value_array but for the int64 payload. -/
def get_value_int64 (self : JVal) : Result Int × JVal :=
  match self with
  | .int64 n => (ok n, .null)
  | _ => (failR "Not an int64" 0, self)

/-- get_value_string: as get_value_array but for the string payload (the
payload is swapped out into the result). -/
def get_value_string (self : JVal) : Result Bytes × JVal :=
  match self with
  | .str s => (ok s, .null)
  | _ => (failR "Not a string" [], self)

/-- set_value_at swaps the argument tree with operator-bracket(key) inside
a try block.  operator-bracket on a null receiver first converts it to an
empty object; on an object it inserts a null node when the key is absent;
on any other kind it throws (caught into a failure, leaving receiver and
argument untouched).  The swap stores the argument at the key and hands
the slot's previous content (null when freshly created) back to the
argument.  Returns (result, receiver afterwards, argument afterwards). -/
def set_value_at (self : JVal) (key : Bytes) (value : JVal) :
    ResultV × JVal × JVal :=
  match self with
  | .null => (⟨true, ""⟩, .obj (setKey [] key value), .null)
  | .obj kvs =>
      (⟨true, ""⟩, .obj (setKey kvs key value),
        (lookupKey kvs key).getD .null)
  | _ => (⟨false, "cannot use operator-bracket with this type"⟩, self, value)

/-- set_value_array unconditionally replaces the receiver with an array of
the moved-in elements. -/
def set_value_array (_self : JVal) (value : List JVal) : JVal := .arr value

/-- set_value_float64 unconditionally replaces the receiver. -/
def set_value_float64 (_self : JVal) (value : F64) : JVal := .float64 value

/-- set_value_int64 unconditionally replaces the receiver. -/
def set_value_int64 (_self : JVal) (value : Int) : JVal := .int64 value

end JSON

/-! ## External collaborators, modelled from the spec -/

/-- Modelled from the spec: the external UTF-8 validity checker
(mk::data::contains_valid_utf8 from mkdata, not part of this repository):
standard RFC 3629 byte-sequence validation. -/
def utf8Valid : Bytes → Bool
  | [] => true
  | b :: rest =>
    if b ≤ 0x7F then utf8Valid rest
    else if 0xC2 ≤ b ∧ b ≤ 0xDF then
      match rest with
      | c :: rest2 => decide (0x80 ≤ c ∧ c ≤ 0xBF) && utf8Valid rest2
      | [] => false
    else if b = 0xE0 then
      match rest with
      | c1 :: c2 :: rest2 =>
          decide (0xA0 ≤ c1 ∧ c1 ≤ 0xBF) && decide (0x80 ≤ c2 ∧ c2 ≤ 0xBF)
            && utf8Valid rest2
      | _ => false
    else if (0xE1 ≤ b ∧ b ≤ 0xEC) ∨ (0xEE ≤ b ∧ b ≤ 0xEF) then
      match rest with
      | c1 :: c2 :: rest2 =>
          decide (0x80 ≤ c1 ∧ c1 ≤ 0xBF) && decide (0x80 ≤ c2 ∧ c2 ≤ 0xBF)
            && utf8Valid rest2
      | _ => false
    else if b = 0xED then
      match rest with
      | c1 :: c2 :: rest2 =>
          decide (0x80 ≤ c1 ∧ c1 ≤ 0x9F) && decide (0x80 ≤ c2 ∧ c2 ≤ 0xBF)
            && utf8Valid rest2
      | _ => false
    else if b = 0xF0 then
      match rest with
      | c1 :: c2 :: c3 :: rest2 =>
          decide (0x90 ≤ c1 ∧ c1 ≤ 0xBF) && decide (0x80 ≤ c2 ∧ c2 ≤ 0xBF)
            && decide (0x80 ≤ c3 ∧ c3 ≤ 0xBF) && utf8Valid rest2
      | _ => false
    else if 0xF1 ≤ b ∧ b ≤ 0xF3 then
      match rest with
      | c1 :: c2 :: c3 :: rest2 =>
          decide (0x80 ≤ c1 ∧ c1 ≤ 0xBF) && decide (0x80 ≤ c2 ∧ c2 ≤ 0xBF)
            && decide (0x80 ≤ c3 ∧ c3 ≤ 0xBF) && utf8Valid rest2
      | _ => false
    else if b = 0xF4 then
      match rest with
      | c1 :: c2 :: c3 :: rest2 =>
          decide (0x80 ≤ c1 ∧ c1 ≤ 0x8F) && decide (0x80 ≤ c2 ∧ c2 ≤ 0xBF)
            && decide (0x80 ≤ c3 ∧ c3 ≤ 0xBF) && utf8Valid rest2
      | _ => false
    else false

/-- b64Char maps a 6-bit group to its base64 alphabet byte. -/
def b64Char (n : Nat) : Nat :=
  if n < 26 then 65 + n
  else if n < 52 then 97 + (n - 26)
  else if n < 62 then 48 + (n - 52)
  else if n = 62 then 43
  else 47

/-- Modelled from the spec: the external base64 encoder
(mk::data::base64_encode from mkdata, not part of this repository):
standard base64 with padding over byte sequences. -/
def base64_encode : Bytes → Bytes
  | b0 :: b1 :: b2 :: rest =>
      let w := (b0 % 256) * 65536 + (b1 % 256) * 256 + (b2 % 256)
      b64Char (w / 262144) :: b64Char (w / 4096 % 64) ::
        b64Char (w / 64 % 64) :: b64Char (w % 64) :: base64_encode rest
  | [b0, b1] =>
      let w := (b0 % 256) * 65536 + (b1 % 256) * 256
      [b64Char (w / 262144), b64Char (w / 4096 % 64), b64Char (w / 64 % 64), 61]
  | [b0] =>
      let w := (b0 % 256) * 65536
      [b64Char (w / 262144), b64Char (w / 4096 % 64), 61, 61]
  | [] => []

namespace JSON

/-- set_value_string first applies the sanitization policy of the source
(if the bytes are not valid UTF-8, replace them with their base64
encoding), then unconditionally replaces the receiver with the string. -/
def set_value_string (_self : JVal) (value : Bytes) : JVal :=
  let value := if !utf8Valid value then base64_encode value else value
  .str value

end JSON

/-! ## Pointer-addressed generic helpers (swap_value_at / movein) -/

/-- SwapResult mirrors mk::json::SwapResult. -/
inductive SwapResult where
  | success
  | bad_json_pointer
  | not_found
  | cast_failed
deriving DecidableEq

/-- MoveinResult mirrors mk::json::MoveinResult. -/
inductive MoveinResult where
  | success
  | bad_json_pointer
  | cannot_create
deriving DecidableEq

/-- HostTy enumerates the closed set of host types the generic
swap_value_at template is instantiated at: bool, double, int64_t,
std::string, std::vector of nodes, std::map of string to node. -/
inductive HostTy where
  | hbool
  | hdouble
  | hint64
  | hstring
  | harray
  | hobject
deriving DecidableEq

/-- castOk models nlohmann get_ptr with the host type: the pointer is
non-null exactly when the stored kind matches the requested host type. -/
def castOk : HostTy → JVal → Bool
  | .hbool, .boolean _ => true
  | .hdouble, .float64 _ => true
  | .hint64, .int64 _ => true
  | .hstring, .str _ => true
  | .harray, .arr _ => true
  | .hobject, .obj _ => true
  | _, _ => false

/-- unescapeToken resolves the JSON-pointer escapes inside one reference
token: tilde-0 is a literal tilde, tilde-1 is a literal slash, any other
tilde use is a syntax error (byte 126 is tilde, 47 slash, 48 and 49 the
digits 0 and 1). -/
def unescapeToken : Bytes → Option Bytes
  | [] => some []
  | 126 :: 48 :: rest => (unescapeToken rest).map (126 :: ·)
  | 126 :: 49 :: rest => (unescapeToken rest).map (47 :: ·)
  | 126 :: _ => none
  | c :: rest => (unescapeToken rest).map (c :: ·)

/-- splitSlash splits a byte string at every slash (byte 47), keeping
empty segments. -/
def splitSlash : Bytes → List Bytes
  | [] => [[]]
  | 47 :: rest => [] :: splitSlash rest
  | c :: rest =>
      match splitSlash rest with
      | t :: ts => (c :: t) :: ts
      | [] => [[c]]

/-- Modelled from the spec: nlohmann json_pointer construction (the
engine's pointer-compilation step).  The empty string is the root pointer;
otherwise the string must start with a slash and splits into
slash-separated reference tokens with tilde escapes; any violation throws,
which the callers translate into bad_json_pointer. -/
def compilePointer (s : Bytes) : Option (List Bytes) :=
  match s with
  | [] => some []
  | 47 :: rest => (splitSlash rest).mapM unescapeToken
  | _ => none

/-- digitsToNat folds decimal digit bytes into a number. -/
def digitsToNat (t : Bytes) : Nat :=
  t.foldl (fun acc c => acc * 10 + (c - 48)) 0

/-- isDigits tests that a token is a non-empty run of decimal digits. -/
def isDigits (t : Bytes) : Bool :=
  !t.isEmpty && t.all (fun c => 48 ≤ c && c ≤ 57)

/-- Modelled from the spec: nlohmann array_index for at-style access: the
token must be all digits with no leading zero (a dash or any other token
throws, which the caller's catch maps to not_found). -/
def arrayIndexOf (t : Bytes) : Option Nat :=
  if isDigits t && (t.length = 1 || t.head? ≠ some 48) then
    some (digitsToNat t)
  else none

/-- Modelled from the spec: navigation of json.at(pointer) combined with
the std::swap against a default-constructed (null) temporary performed by
swap_value_at: returns the node that was at the address together with the
tree in which that slot now holds null, or none when the address does not
resolve (nlohmann throws, mapped to not_found by the caller). -/
def resolveSwap : JVal → List Bytes → Option (JVal × JVal)
  | j, [] => some (j, .null)
  | .obj kvs, t :: ts =>
      match lookupKey kvs t with
      | some v =>
          match resolveSwap v ts with
          | some (node, v2) => some (node, .obj (setKey kvs t v2))
          | none => none
      | none => none
  | .arr xs, t :: ts =>
      match arrayIndexOf t with
      | some i =>
          match xs.get? i with
          | some v =>
              match resolveSwap v ts with
              | some (node, v2) => some (node, .arr (xs.set i v2))
              | none => none
          | none => none
      | none => none
  | _, _ :: _ => none

/-- resolveGet is read-only pointer resolution (json.at(pointer) without
the swap): the node at the address, if it resolves. -/
def resolveGet : JVal → List Bytes → Option JVal
  | j, [] => some j
  | .obj kvs, t :: ts =>
      match lookupKey kvs t with
      | some v => resolveGet v ts
      | none => none
  | .arr xs, t :: ts =>
      match arrayIndexOf t with
      | some i =>
          match xs.get? i with
          | some v => resolveGet v ts
          | none => none
      | none => none
  | _, _ :: _ => none

/-- swap_value_at mirrors the generic template: compile the pointer (bad
pointer reported), swap the addressed node out of the tree against a null
temporary (failure to resolve reported as not_found), attempt the cast
(mismatch reported as cast_failed with the tree already mutated), and on
success swap the payload into the caller's target.  Returns
(result, tree afterwards, target afterwards). -/
def swap_value_at (json : JVal) (pointer : Bytes) (ty : HostTy)
    (value : JVal) : SwapResult × JVal × JVal :=
  match compilePointer pointer with
  | none => (.bad_json_pointer, json, value)
  | some p =>
      match resolveSwap json p with
      | none => (.not_found, json, value)
      | some (element, json2) =>
          if castOk ty element then (.success, json2, element)
          else (.cast_failed, json2, value)

/-- Modelled from the spec: nlohmann operator-bracket(json_pointer)
assignment with auto-creation.  A null node becomes an array when the next
token is an index-like token (all digits or a dash) and an object
otherwise; objects insert missing keys; arrays append on dash, index with
no leading zero, and expand with nulls past the end; any scalar in the way
throws (mapped to cannot_create by movein). -/
def pointerAssign : JVal → List Bytes → JVal → Option JVal
  | _, [], v => some v
  | j, t :: ts, v =>
    let j2 := match j with
      | .null => if isDigits t || t = [45] then JVal.arr [] else JVal.obj []
      | other => other
    match j2 with
    | .obj kvs =>
        let child := (lookupKey kvs t).getD .null
        match pointerAssign child ts v with
        | some c2 => some (.obj (setKey kvs t c2))
        | none => none
    | .arr xs =>
        if t = [45] then
          match pointerAssign .null ts v with
          | some c2 => some (.arr (xs ++ [c2]))
          | none => none
        else
          match arrayIndexOf t with
          | some i =>
              let xs2 :=
                if i < xs.length then xs
                else xs ++ List.replicate (i + 1 - xs.length) JVal.null
              match xs2.get? i with
              | some child =>
                  match pointerAssign child ts v with
                  | some c2 => some (.arr (xs2.set i c2))
                  | none => none
              | none => none
          | none => none
    | _ => none

/-- movein_ mirrors the untyped insertion helper: compile the pointer (bad
pointer reported), then move-assign the value at the address with
auto-creation (structural impossibility reported as cannot_create;
the model returns the original tree on that path).  Returns
(result, tree afterwards). -/
def movein_ (json : JVal) (pointer : Bytes) (value : JVal) :
    MoveinResult × JVal :=
  match compilePointer pointer with
  | none => (.bad_json_pointer, json)
  | some p =>
      match pointerAssign json p value with
      | some j2 => (.success, j2)
      | none => (.cannot_create, json)

/-- movein_str mirrors the movein specialization for std::string: apply
the sanitization policy (base64-encode unless valid UTF-8), then delegate
to the untyped helper with the string node. -/
def movein_str (json : JVal) (pointer : Bytes) (value : Bytes) :
    MoveinResult × JVal :=
  let value := if !utf8Valid value then base64_encode value else value
  movein_ json pointer (.str value)

/-- movein_vec_str mirrors the movein specialization for a vector of
strings: sanitize each element, then delegate with the array node. -/
def movein_vec_str (json : JVal) (pointer : Bytes) (value : List Bytes) :
    MoveinResult × JVal :=
  let value := value.map
    (fun s => if !utf8Valid s then base64_encode s else s)
  movein_ json pointer (.arr (value.map .str))

/-- movein_map_str mirrors the movein specialization for a map of string
to string: sanitize each mapped value (keys are not sanitized), then
delegate with the object node. -/
def movein_map_str (json : JVal) (pointer : Bytes)
    (value : List (Bytes × Bytes)) : MoveinResult × JVal :=
  let value := value.map
    (fun p => (p.1, if !utf8Valid p.2 then base64_encode p.2 else p.2))
  movein_ json pointer (.obj (value.map (fun p => (p.1, .str p.2))))

/-! ## Serialization (dump) -/

/-- hexDigit renders a 4-bit value as a lowercase hexadecimal byte. -/
def hexDigit (n : Nat) : Nat := if n < 10 then 48 + n else 87 + n

/-- escapeByte renders one string byte inside a JSON string literal:
quote and backslash are backslash-escaped, control bytes use the
backslash-u form, anything else passes through. -/
def escapeByte (c : Nat) : Bytes :=
  if c = 34 then [92, 34]
  else if c = 92 then [92, 92]
  else if c < 32 then [92, 117, 48, 48, hexDigit (c / 16), hexDigit (c % 16)]
  else [c]

/-- serializeString renders a byte string as a quoted JSON string literal. -/
def serializeString (s : Bytes) : Bytes :=
  34 :: (s.map escapeByte).flatten ++ [34]

/-- joinComma joins rendered fragments with comma bytes. -/
def joinComma : List Bytes → Bytes
  | [] => []
  | [x] => x
  | x :: xs => x ++ 44 :: joinComma xs

/-- ascii turns a Lean string of ASCII characters into its bytes. -/
def ascii (s : String) : Bytes := s.data.map Char.toNat

mutual

/-- Modelled from the spec: the external engine's serializer
(nlohmann json dump), which renders the subtree as JSON text and throws a
type error as soon as it meets a string — value or object key — that is
not valid UTF-8; double formatting is rendered through the opaque bit
payload since no claim depends on its text. -/
def serializeJ : JVal → Except String Bytes
  | .null => .ok (ascii "null")
  | .boolean b => .ok (ascii (if b then "true" else "false"))
  | .int64 n => .ok (ascii (toString n))
  | .float64 x => .ok (ascii (toString x.bits))
  | .str s =>
      if utf8Valid s then .ok (serializeString s)
      else .error "invalid UTF-8 byte in string"
  | .arr xs =>
      match serializeL xs with
      | .ok parts => .ok (91 :: joinComma parts ++ [93])
      | .error e => .error e
  | .obj kvs =>
      match serializeO kvs with
      | .ok parts => .ok (123 :: joinComma parts ++ [125])
      | .error e => .error e

/-- serializeL serializes the elements of an array in order, propagating
the first failure. -/
def serializeL : List JVal → Except String (List Bytes)
  | [] => .ok []
  | x :: xs =>
      match serializeJ x with
      | .ok h =>
          match serializeL xs with
          | .ok t => .ok (h :: t)
          | .error e => .error e
      | .error e => .error e

/-- serializeO serializes the members of an object in order, checking each
key for UTF-8 validity and propagating the first failure. -/
def serializeO : List (Bytes × JVal) → Except String (List Bytes)
  | [] => .ok []
  | (k, v) :: rest =>
      if utf8Valid k then
        match serializeJ v with
        | .ok hv =>
            match serializeO rest with
            | .ok t => .ok ((serializeString k ++ 58 :: hv) :: t)
            | .error e => .error e
        | .error e => .error e
      else .error "invalid UTF-8 byte in object key"

end

mutual

/-- hasInvalid holds when the subtree contains a string — value or object
key — that is not valid UTF-8. -/
def hasInvalid : JVal → Bool
  | .str s => !utf8Valid s
  | .arr xs => hasInvalidL xs
  | .obj kvs => hasInvalidO kvs
  | _ => false

/-- hasInvalidL is hasInvalid over the elements of an array. -/
def hasInvalidL : List JVal → Bool
  | [] => false
  | x :: xs => hasInvalid x || hasInvalidL xs

/-- hasInvalidO is hasInvalid over the members of an object, keys
included. -/
def hasInvalidO : List (Bytes × JVal) → Bool
  | [] => false
  | (k, v) :: rest => !utf8Valid k || hasInvalid v || hasInvalidO rest

end

namespace JSON

/-- dump delegates to the engine serializer inside a try block: on
success the text is the result value; the engine throwing (invalid UTF-8
in the subtree) becomes a failure whose value stays at the default empty
string. -/
def dump (self : JVal) : Result Bytes :=
  match serializeJ self with
  | .ok s => ok s
  | .error e => ⟨false, e, []⟩

end JSON

/-! ## Helper lemmas about the object and array primitives -/

/-- Looking a key up right after setKey finds the value just stored. -/
theorem lookupKey_setKey_self (kvs : List (Bytes × JVal)) (key : Bytes)
    (v : JVal) : lookupKey (setKey kvs key v) key = some v := by
  induction kvs with
  | nil => simp [setKey, lookupKey]
  | cons kv rest ih =>
      obtain ⟨k, w⟩ := kv
      by_cases h : k = key
      · simp [setKey, lookupKey, h]
      · simp [setKey, lookupKey, h, ih]

/-- A key that does not occur among the entry keys looks up to none. -/
theorem lookupKey_eq_none_of_not_mem (kvs : List (Bytes × JVal))
    (key : Bytes) (h : key ∉ kvs.map Prod.fst) : lookupKey kvs key = none := by
  induction kvs with
  | nil => rfl
  | cons kv rest ih =>
      obtain ⟨k, w⟩ := kv
      simp only [List.map_cons, List.mem_cons, not_or] at h
      rw [lookupKey, if_neg (fun hk => h.1 hk.symm)]
      exact ih h.2

/-- With unique keys, a key is gone after eraseKey. -/
theorem lookupKey_eraseKey_self (kvs : List (Bytes × JVal)) (key : Bytes)
    (h : (kvs.map Prod.fst).Nodup) :
    lookupKey (eraseKey kvs key) key = none := by
  induction kvs with
  | nil => rfl
  | cons kv rest ih =>
      obtain ⟨k, w⟩ := kv
      simp only [List.map_cons, List.nodup_cons] at h
      rw [eraseKey]
      by_cases hk : k = key
      · rw [if_pos hk]
        exact lookupKey_eq_none_of_not_mem rest key (hk ▸ h.1)
      · rw [if_neg hk, lookupKey, if_neg hk]
        exact ih h.2

/-- Reading an index right after List.set at that index yields the new
element, provided the index was in range. -/
theorem get?_set_self (xs : List JVal) (i : Nat) (v w : JVal)
    (h : xs.get? i = some v) : (xs.set i w).get? i = some w := by
  induction xs generalizing i with
  | nil => simp at h
  | cons x rest ih =>
      cases i with
      | zero => rfl
      | succ n =>
          simp only [List.get?_cons_succ] at h
          simpa only [List.set, List.get?_cons_succ] using ih n h

/-- After resolveSwap succeeds, the addressed slot of the returned tree
holds null: the node is no longer in the tree. -/
theorem resolveGet_after_resolveSwap (p : List Bytes) :
    ∀ (j node j2 : JVal), resolveSwap j p = some (node, j2) →
      resolveGet j2 p = some JVal.null := by
  induction p with
  | nil =>
      intro j node j2 h
      simp only [resolveSwap, Option.some.injEq, Prod.mk.injEq] at h
      rw [← h.2]
      rfl
  | cons t ts ih =>
      intro j node j2 h
      cases j with
      | obj kvs =>
          simp only [resolveSwap] at h
          split at h
          · rename_i v hl
            split at h
            · rename_i nd v2 hr
              simp only [Option.some.injEq, Prod.mk.injEq] at h
              rw [← h.2]
              simp only [resolveGet, lookupKey_setKey_self]
              exact ih v nd v2 hr
            · exact absurd h (by simp)
          · exact absurd h (by simp)
      | arr xs =>
          simp only [resolveSwap] at h
          split at h
          · rename_i i hi
            split at h
            · rename_i v hg
              split at h
              · rename_i nd v2 hr
                simp only [Option.some.injEq, Prod.mk.injEq] at h
                rw [← h.2]
                simp only [resolveGet, hi, get?_set_self xs i v v2 hg]
                exact ih v nd v2 hr
              · exact absurd h (by simp)
            · exact absurd h (by simp)
          · exact absurd h (by simp)
      | null => simp [resolveSwap] at h
      | boolean b => simp [resolveSwap] at h
      | int64 n => simp [resolveSwap] at h
      | float64 x => simp [resolveSwap] at h
      | str s => simp [resolveSwap] at h

/-- The set_value_at failure message is non-empty. -/
theorem set_value_at_msg_ne :
    ("cannot use operator-bracket with this type" : String) ≠ "" := by decide

/-- The get_value_at wrong-kind failure message is non-empty. -/
theorem at_wrong_kind_msg_ne :
    ("cannot use at with this type" : String) ≠ "" := by decide

/-- The get_value_at missing-key failure message is non-empty. -/
theorem key_not_found_msg_ne : ("key not found" : String) ≠ "" := by decide

/-- The get_value_array failure message is non-empty. -/
theorem not_array_msg_ne : ("Not an array" : String) ≠ "" := by decide

/-- The get_value_boolean failure message is non-empty. -/
theorem not_boolean_msg_ne : ("Not a boolean" : String) ≠ "" := by decide

/-- The get_value_float64 failure message is non-empty. -/
theorem not_float64_msg_ne : ("Not a float64" : String) ≠ "" := by decide

/-- The get_value_int64 failure message is non-empty. -/
theorem not_int64_msg_ne : ("Not an int64" : String) ≠ "" := by decide

/-- The get_value_string failure message is non-empty. -/
theorem not_string_msg_ne : ("Not a string" : String) ≠ "" := by decide

/-! ## Claim theorems -/

/-- C1 counterexample: move-assignment is implemented as a swap of the two
implementation pointers, so after b = move(a) with b previously holding
the integer 2, the moved-from a holds 2 and is not null — refuting the
claim that the source is always null after move-assignment. -/
theorem C1_counterexample :
    ¬ (JSON.is_null (JSON.moveAssign (JVal.int64 2) (JVal.int64 1)).2
        = true) := by decide

/-- C1 (amended): move-construction transfers the subtree and leaves the
source freshly null; move-assignment exchanges the two subtrees, so the
target holds what the source held, and the source is null exactly when
the target previously was.  (The absence of copy construction/assignment
is a C++ type-level fact: both are declared deleted in the source.) -/
theorem C1_move_semantics (a b : JVal) :
    (JSON.moveConstruct a).1 = a ∧
    JSON.is_null (JSON.moveConstruct a).2 = true ∧
    (JSON.moveAssign b a).1 = a ∧
    (JSON.moveAssign b a).2 = b ∧
    JSON.is_null (JSON.moveAssign b a).2 = JSON.is_null b :=
  ⟨rfl, rfl, rfl, rfl, rfl⟩

/-- C2 counterexample: set_value_at swaps the argument with the slot at
the key, so when the key already held the non-null value true, the
argument holds true afterwards and is not null — refuting the claim that
a successful set_value_at always leaves the argument null. -/
theorem C2_counterexample :
    (JSON.set_value_at (JVal.obj [([107], JVal.boolean true)]) [107]
        (JVal.boolean false)).1.good = true ∧
    ¬ (JSON.is_null (JSON.set_value_at (JVal.obj [([107], JVal.boolean true)])
        [107] (JVal.boolean false)).2.2 = true) := by
  constructor
  · rfl
  · decide

/-- C2 (amended): a successful set_value_at on an object-typed receiver
leaves the argument holding the receiver's previous value at the key —
null when the key was absent (the slot is freshly created as null before
the swap), and likewise null on a null receiver — so the argument ends up
null only when the prior slot content was null. -/
theorem C2_set_value_at_argument (kvs : List (Bytes × JVal)) (key : Bytes)
    (v : JVal) :
    (JSON.set_value_at (JVal.obj kvs) key v).1.good = true ∧
    (JSON.set_value_at (JVal.obj kvs) key v).2.2
      = (lookupKey kvs key).getD JVal.null ∧
    (JSON.set_value_at JVal.null key v).2.2 = JVal.null :=
  ⟨rfl, rfl, rfl⟩

/-- C3 counterexample: on a null receiver, operator-bracket converts the
document to an object and set_value_at succeeds — refuting the claim that
set_value_at fails for every non-object receiver including the null
kind. -/
theorem C3_counterexample :
    ¬ ((JSON.set_value_at JVal.null [107] (JVal.boolean true)).1.good
        = false) := by decide

/-- C3 (amended): set_value_at succeeds when the receiver is an object —
inserting the key if absent, overwriting it if present — and also when
the receiver is null, converting it into an object holding the key; for
every other receiver kind it fails with a non-empty message, leaving
receiver and argument untouched. -/
theorem C3_set_value_at_kind (j : JVal) (key : Bytes) (v : JVal) :
    (j.kind = .obj ∨ j.kind = .null →
      (JSON.set_value_at j key v).1.good = true ∧
      ∃ kvs, (JSON.set_value_at j key v).2.1 = JVal.obj kvs ∧
        lookupKey kvs key = some v) ∧
    (j.kind ≠ .obj → j.kind ≠ .null →
      (JSON.set_value_at j key v).1.good = false ∧
      (JSON.set_value_at j key v).1.failure ≠ "" ∧
      (JSON.set_value_at j key v).2.1 = j ∧
      (JSON.set_value_at j key v).2.2 = v) := by
  cases j with
  | null =>
      refine ⟨fun _ => ⟨rfl, setKey [] key v, rfl, lookupKey_setKey_self _ _ _⟩,
        fun _ hn => absurd rfl hn⟩
  | obj kvs =>
      refine ⟨fun _ => ⟨rfl, setKey kvs key v, rfl, lookupKey_setKey_self _ _ _⟩,
        fun ho _ => absurd rfl ho⟩
  | boolean b =>
      exact ⟨fun h => by cases h <;> simp_all [JVal.kind],
        fun _ _ => ⟨rfl, set_value_at_msg_ne, rfl, rfl⟩⟩
  | int64 n =>
      exact ⟨fun h => by cases h <;> simp_all [JVal.kind],
        fun _ _ => ⟨rfl, set_value_at_msg_ne, rfl, rfl⟩⟩
  | float64 x =>
      exact ⟨fun h => by cases h <;> simp_all [JVal.kind],
        fun _ _ => ⟨rfl, set_value_at_msg_ne, rfl, rfl⟩⟩
  | str s =>
      exact ⟨fun h => by cases h <;> simp_all [JVal.kind],
        fun _ _ => ⟨rfl, set_value_at_msg_ne, rfl, rfl⟩⟩
  | arr xs =>
      exact ⟨fun h => by cases h <;> simp_all [JVal.kind],
        fun _ _ => ⟨rfl, set_value_at_msg_ne, rfl, rfl⟩⟩

/-- C3 witness: the amended statement instantiated at an empty object (the
success arm) and at an integer receiver (the failure arm). -/
theorem C3_witness :
    ((JSON.set_value_at (JVal.obj []) [107] (JVal.boolean true)).1.good = true ∧
      ∃ kvs, (JSON.set_value_at (JVal.obj []) [107]
          (JVal.boolean true)).2.1 = JVal.obj kvs ∧
        lookupKey kvs [107] = some (JVal.boolean true)) ∧
    ((JSON.set_value_at (JVal.int64 0) [107] (JVal.boolean true)).1.good = false ∧
      (JSON.set_value_at (JVal.int64 0) [107] (JVal.boolean true)).1.failure ≠ "" ∧
      (JSON.set_value_at (JVal.int64 0) [107] (JVal.boolean true)).2.1
        = JVal.int64 0 ∧
      (JSON.set_value_at (JVal.int64 0) [107] (JVal.boolean true)).2.2
        = JVal.boolean true) :=
  ⟨(C3_set_value_at_kind (JVal.obj []) [107] (JVal.boolean true)).1 (Or.inl rfl),
    (C3_set_value_at_kind (JVal.int64 0) [107] (JVal.boolean true)).2
      (by decide) (by decide)⟩

/-- C4: get_value_at on an object containing the key succeeds, returns
the value that was at the key, and leaves the receiver an object from
which the key is absent; on a non-object receiver or an absent key it
fails with a non-empty message. -/
theorem C4_get_value_at (j : JVal) (key : Bytes) :
    (∀ kvs v, j = JVal.obj kvs → (kvs.map Prod.fst).Nodup →
      lookupKey kvs key = some v →
      JSON.get_value_at j key = (ok v, JVal.obj (eraseKey kvs key)) ∧
      JSON.is_object (JSON.get_value_at j key).2 = true ∧
      lookupKey (eraseKey kvs key) key = none) ∧
    (j.kind ≠ .obj →
      (JSON.get_value_at j key).1.good = false ∧
      (JSON.get_value_at j key).1.failure ≠ "") ∧
    (∀ kvs, j = JVal.obj kvs → lookupKey kvs key = none →
      (JSON.get_value_at j key).1.good = false ∧
      (JSON.get_value_at j key).1.failure ≠ "") := by
  refine ⟨?_, ?_, ?_⟩
  · rintro kvs v rfl hnd hl
    have hred : JSON.get_value_at (JVal.obj kvs) key
        = (ok v, JVal.obj (eraseKey kvs key)) := by
      simp only [JSON.get_value_at, hl]
    exact ⟨hred, by rw [hred]; rfl, lookupKey_eraseKey_self kvs key hnd⟩
  · intro hko
    cases j with
    | obj kvs => exact absurd rfl hko
    | null => exact ⟨rfl, at_wrong_kind_msg_ne⟩
    | boolean b => exact ⟨rfl, at_wrong_kind_msg_ne⟩
    | int64 n => exact ⟨rfl, at_wrong_kind_msg_ne⟩
    | float64 x => exact ⟨rfl, at_wrong_kind_msg_ne⟩
    | str s => exact ⟨rfl, at_wrong_kind_msg_ne⟩
    | arr xs => exact ⟨rfl, at_wrong_kind_msg_ne⟩
  · rintro kvs rfl hl
    have hred : JSON.get_value_at (JVal.obj kvs) key
        = (failR "key not found" .null, JVal.obj kvs) := by
      simp only [JSON.get_value_at, hl]
    rw [hred]
    exact ⟨rfl, key_not_found_msg_ne⟩

/-- C4 witness: the common case on an object holding one integer at the
key, the wrong-kind case on an integer receiver, and the missing-key case
on an empty object. -/
theorem C4_witness :
    (JSON.get_value_at (JVal.obj [([97], JVal.int64 7)]) [97]
        = (ok (JVal.int64 7), JVal.obj (eraseKey [([97], JVal.int64 7)] [97])) ∧
      JSON.is_object
        (JSON.get_value_at (JVal.obj [([97], JVal.int64 7)]) [97]).2 = true ∧
      lookupKey (eraseKey [([97], JVal.int64 7)] [97]) [97] = none) ∧
    ((JSON.get_value_at (JVal.int64 0) [97]).1.good = false ∧
      (JSON.get_value_at (JVal.int64 0) [97]).1.failure ≠ "") ∧
    ((JSON.get_value_at (JVal.obj []) [97]).1.good = false ∧
      (JSON.get_value_at (JVal.obj []) [97]).1.failure ≠ "") :=
  ⟨(C4_get_value_at (JVal.obj [([97], JVal.int64 7)]) [97]).1
      [([97], JVal.int64 7)] (JVal.int64 7) rfl (by decide) rfl,
    (C4_get_value_at (JVal.int64 0) [97]).2.1 (by decide),
    (C4_get_value_at (JVal.obj []) [97]).2.2 [] rfl rfl⟩

/-- C7: each typed extractor applied to a Value of a different kind fails
with a non-empty message and leaves the receiver's observable kind
unchanged. -/
theorem C7_wrong_kind_extractors (j : JVal) :
    (j.kind ≠ .arr →
      (JSON.get_value_array j).1.good = false ∧
      (JSON.get_value_array j).1.failure ≠ "" ∧
      (JSON.get_value_array j).2.kind = j.kind) ∧
    (j.kind ≠ .boolean →
      (JSON.get_value_boolean j).1.good = false ∧
      (JSON.get_value_boolean j).1.failure ≠ "" ∧
      (JSON.get_value_boolean j).2.kind = j.kind) ∧
    (j.kind ≠ .float64 →
      (JSON.get_value_float64 j).1.good = false ∧
      (JSON.get_value_float64 j).1.failure ≠ "" ∧
      (JSON.get_value_float64 j).2.kind = j.kind) ∧
    (j.kind ≠ .int64 →
      (JSON.get_value_int64 j).1.good = false ∧
      (JSON.get_value_int64 j).1.failure ≠ "" ∧
      (JSON.get_value_int64 j).2.kind = j.kind) ∧
    (j.kind ≠ .str →
      (JSON.get_value_string j).1.good = false ∧
      (JSON.get_value_string j).1.failure ≠ "" ∧
      (JSON.get_value_string j).2.kind = j.kind) := by
  cases j <;>
    refine ⟨fun h => ?_, fun h => ?_, fun h => ?_, fun h => ?_, fun h => ?_⟩ <;>
      first
        | exact absurd rfl h
        | exact ⟨rfl, not_array_msg_ne, rfl⟩
        | exact ⟨rfl, not_boolean_msg_ne, rfl⟩
        | exact ⟨rfl, not_float64_msg_ne, rfl⟩
        | exact ⟨rfl, not_int64_msg_ne, rfl⟩
        | exact ⟨rfl, not_string_msg_ne, rfl⟩

/-- C7 witness: all five wrong-kind extractions on a null Value. -/
theorem C7_witness :
    ((JSON.get_value_array JVal.null).1.good = false ∧
      (JSON.get_value_array JVal.null).1.failure ≠ "" ∧
      (JSON.get_value_array JVal.null).2.kind = JVal.null.kind) ∧
    ((JSON.get_value_boolean JVal.null).1.good = false ∧
      (JSON.get_value_boolean JVal.null).1.failure ≠ "" ∧
      (JSON.get_value_boolean JVal.null).2.kind = JVal.null.kind) ∧
    ((JSON.get_value_float64 JVal.null).1.good = false ∧
      (JSON.get_value_float64 JVal.null).1.failure ≠ "" ∧
      (JSON.get_value_float64 JVal.null).2.kind = JVal.null.kind) ∧
    ((JSON.get_value_int64 JVal.null).1.good = false ∧
      (JSON.get_value_int64 JVal.null).1.failure ≠ "" ∧
      (JSON.get_value_int64 JVal.null).2.kind = JVal.null.kind) ∧
    ((JSON.get_value_string JVal.null).1.good = false ∧
      (JSON.get_value_string JVal.null).1.failure ≠ "" ∧
      (JSON.get_value_string JVal.null).2.kind = JVal.null.kind) :=
  ⟨(C7_wrong_kind_extractors JVal.null).1 (by decide),
    (C7_wrong_kind_extractors JVal.null).2.1 (by decide),
    (C7_wrong_kind_extractors JVal.null).2.2.1 (by decide),
    (C7_wrong_kind_extractors JVal.null).2.2.2.1 (by decide),
    (C7_wrong_kind_extractors JVal.null).2.2.2.2 (by decide)⟩

/-- C8: every kind-matching typed extraction succeeds, moves the payload
out (for arrays, the result holds exactly the element list, each element
its own Value) and leaves the receiver null; a keyed lookup through
get_value_at returns the value at the key and leaves the key absent from
the still-object receiver. -/
theorem C8_destructive_extraction (j : JVal) :
    (∀ xs, j = JVal.arr xs →
      JSON.get_value_array j = (ok xs, JVal.null)) ∧
    (∀ b, j = JVal.boolean b →
      JSON.get_value_boolean j = (ok b, JVal.null)) ∧
    (∀ x, j = JVal.float64 x →
      JSON.get_value_float64 j = (ok x, JVal.null)) ∧
    (∀ n, j = JVal.int64 n →
      JSON.get_value_int64 j = (ok n, JVal.null)) ∧
    (∀ s, j = JVal.str s →
      JSON.get_value_string j = (ok s, JVal.null)) ∧
    (∀ kvs key v, j = JVal.obj kvs → (kvs.map Prod.fst).Nodup →
      lookupKey kvs key = some v →
      (JSON.get_value_at j key).1 = ok v ∧
      (JSON.get_value_at j key).2 = JVal.obj (eraseKey kvs key) ∧
      lookupKey (eraseKey kvs key) key = none) := by
  refine ⟨?_, ?_, ?_, ?_, ?_, ?_⟩
  · rintro xs rfl; rfl
  · rintro b rfl; rfl
  · rintro x rfl; rfl
  · rintro n rfl; rfl
  · rintro s rfl; rfl
  · rintro kvs key v rfl hnd hl
    have hred : JSON.get_value_at (JVal.obj kvs) key
        = (ok v, JVal.obj (eraseKey kvs key)) := by
      simp only [JSON.get_value_at, hl]
    rw [hred]
    exact ⟨rfl, rfl, lookupKey_eraseKey_self kvs key hnd⟩

/-- C8 witness: each matching extraction at a concrete Value, and the
keyed lookup on a one-entry object. -/
theorem C8_witness :
    JSON.get_value_array (JVal.arr [JVal.int64 1])
        = (ok [JVal.int64 1], JVal.null) ∧
    JSON.get_value_boolean (JVal.boolean true) = (ok true, JVal.null) ∧
    JSON.get_value_float64 (JVal.float64 ⟨3⟩) = (ok ⟨3⟩, JVal.null) ∧
    JSON.get_value_int64 (JVal.int64 314) = (ok 314, JVal.null) ∧
    JSON.get_value_string (JVal.str [104, 105]) = (ok [104, 105], JVal.null) ∧
    ((JSON.get_value_at (JVal.obj [([107], JVal.str [104])]) [107]).1
        = ok (JVal.str [104]) ∧
      (JSON.get_value_at (JVal.obj [([107], JVal.str [104])]) [107]).2
        = JVal.obj (eraseKey [([107], JVal.str [104])] [107]) ∧
      lookupKey (eraseKey [([107], JVal.str [104])] [107]) [107] = none) :=
  ⟨(C8_destructive_extraction (JVal.arr [JVal.int64 1])).1 [JVal.int64 1] rfl,
    (C8_destructive_extraction (JVal.boolean true)).2.1 true rfl,
    (C8_destructive_extraction (JVal.float64 ⟨3⟩)).2.2.1 ⟨3⟩ rfl,
    (C8_destructive_extraction (JVal.int64 314)).2.2.2.1 314 rfl,
    (C8_destructive_extraction (JVal.str [104, 105])).2.2.2.2.1 [104, 105] rfl,
    (C8_destructive_extraction (JVal.obj [([107], JVal.str [104])])).2.2.2.2.2
      [([107], JVal.str [104])] [107] (JVal.str [104]) rfl (by decide) rfl⟩

/-- The sanitization conditional as written in the source (re-encode
unless valid) equals the policy as the spec states it (keep when valid,
base64 otherwise). -/
theorem sanitize_eq (s : Bytes) :
    (if !utf8Valid s then base64_encode s else s)
      = (if utf8Valid s then s else base64_encode s) := by
  cases h : utf8Valid s <;> simp [h]

/-- The sanitization conditional, in the boolean-equation form the
simplifier normalizes to. -/
theorem sanitize_eq_bool (s : Bytes) :
    (if utf8Valid s = false then base64_encode s else s)
      = (if utf8Valid s = true then s else base64_encode s) := by
  cases h : utf8Valid s <;> simp [h]

/-- C5: every string entering the document through set_value_string or
through a string-bearing movein specialization is stored as itself when
it is valid UTF-8 and as its base64 encoding otherwise; reading back (via
get_value_string, or via swap_value_at after movein at the root) returns
exactly that sanitized form, and all entry paths apply the identical
rule. -/
theorem C5_sanitization (j j2 : JVal) (S : Bytes) (t : JVal)
    (L : List Bytes) (M : List (Bytes × Bytes)) :
    JSON.set_value_string j S
      = JVal.str (if utf8Valid S then S else base64_encode S) ∧
    JSON.get_value_string (JSON.set_value_string j S)
      = (ok (if utf8Valid S then S else base64_encode S), JVal.null) ∧
    movein_str j2 [] S
      = (.success, JVal.str (if utf8Valid S then S else base64_encode S)) ∧
    swap_value_at (JSON.set_value_string j S) [] .hstring t
      = (.success, JVal.null,
          JVal.str (if utf8Valid S then S else base64_encode S)) ∧
    movein_vec_str j2 [] L
      = (.success, JVal.arr (L.map (fun s =>
          JVal.str (if utf8Valid s then s else base64_encode s)))) ∧
    movein_map_str j2 [] M
      = (.success, JVal.obj (M.map (fun p =>
          (p.1, JVal.str (if utf8Valid p.2 then p.2 else base64_encode p.2))))) := by
  refine ⟨?_, ?_, ?_, ?_, ?_, ?_⟩ <;>
    simp [JSON.set_value_string, JSON.get_value_string, movein_str,
      movein_vec_str, movein_map_str, movein_, compilePointer, pointerAssign,
      swap_value_at, resolveSwap, castOk, sanitize_eq, sanitize_eq_bool,
      List.map_map, Function.comp, ok]

/-- C6: when the pointer compiles and addresses an existing node whose
kind does not match the requested host type, swap_value_at returns
cast_failed with the caller's target untouched, and the addressed slot of
the returned tree holds null: the node was destructively removed despite
the cast failure. -/
theorem C6_destructive_probe (j : JVal) (ptr : Bytes) (ty : HostTy)
    (target : JVal) (p : List Bytes) (node j2 : JVal)
    (hc : compilePointer ptr = some p)
    (hr : resolveSwap j p = some (node, j2))
    (hcast : castOk ty node = false) :
    swap_value_at j ptr ty target = (.cast_failed, j2, target) ∧
    resolveGet j2 p = some JVal.null := by
  constructor
  · simp [swap_value_at, hc, hr, hcast]
  · exact resolveGet_after_resolveSwap p j node j2 hr

/-- C6 witness: probing the integer stored under key a with a bool target
fails the cast yet leaves null in the slot. -/
theorem C6_witness :
    swap_value_at (JVal.obj [([97], JVal.int64 1)]) [47, 97] .hbool
        (JVal.boolean false)
      = (.cast_failed, JVal.obj [([97], JVal.null)], JVal.boolean false) ∧
    resolveGet (JVal.obj [([97], JVal.null)]) [[97]] = some JVal.null :=
  C6_destructive_probe (JVal.obj [([97], JVal.int64 1)]) [47, 97] .hbool
    (JVal.boolean false) [[97]] (JVal.int64 1) (JVal.obj [([97], JVal.null)])
    rfl rfl rfl

mutual

/-- The serializer succeeds exactly on subtrees with no invalid-UTF-8
string, and any failure carries a non-empty message. -/
theorem serializeJ_ok_iff (j : JVal) :
    (hasInvalid j = false → ∃ s, serializeJ j = .ok s) ∧
    (hasInvalid j = true →
      ∃ e, serializeJ j = .error e ∧ e ≠ "") := by
  cases j with
  | null => exact ⟨fun _ => ⟨_, rfl⟩, fun h => by simp [hasInvalid] at h⟩
  | boolean b => exact ⟨fun _ => ⟨_, rfl⟩, fun h => by simp [hasInvalid] at h⟩
  | int64 n => exact ⟨fun _ => ⟨_, rfl⟩, fun h => by simp [hasInvalid] at h⟩
  | float64 x => exact ⟨fun _ => ⟨_, rfl⟩, fun h => by simp [hasInvalid] at h⟩
  | str s =>
      constructor
      · intro h
        simp only [hasInvalid, Bool.not_eq_false'] at h
        exact ⟨serializeString s, by simp [serializeJ, h]⟩
      · intro h
        simp only [hasInvalid, Bool.not_eq_true'] at h
        exact ⟨"invalid UTF-8 byte in string", by simp [serializeJ, h],
          by decide⟩
  | arr xs =>
      have hl := serializeL_ok_iff xs
      constructor
      · intro h
        rw [hasInvalid] at h
        obtain ⟨parts, hp⟩ := hl.1 h
        exact ⟨91 :: joinComma parts ++ [93], by simp [serializeJ, hp]⟩
      · intro h
        rw [hasInvalid] at h
        obtain ⟨e, he, hne⟩ := hl.2 h
        exact ⟨e, by simp [serializeJ, he], hne⟩
  | obj kvs =>
      have ho := serializeO_ok_iff kvs
      constructor
      · intro h
        rw [hasInvalid] at h
        obtain ⟨parts, hp⟩ := ho.1 h
        exact ⟨123 :: joinComma parts ++ [125], by simp [serializeJ, hp]⟩
      · intro h
        rw [hasInvalid] at h
        obtain ⟨e, he, hne⟩ := ho.2 h
        exact ⟨e, by simp [serializeJ, he], hne⟩

/-- serializeL succeeds exactly when no element of the array holds an
invalid string; failures carry a non-empty message. -/
theorem serializeL_ok_iff (xs : List JVal) :
    (hasInvalidL xs = false → ∃ s, serializeL xs = .ok s) ∧
    (hasInvalidL xs = true →
      ∃ e, serializeL xs = .error e ∧ e ≠ "") := by
  cases xs with
  | nil =>
      exact ⟨fun _ => ⟨_, rfl⟩, fun h => by simp [hasInvalidL] at h⟩
  | cons x rest =>
      have h1 := serializeJ_ok_iff x
      have h2 := serializeL_ok_iff rest
      constructor
      · intro h
        simp only [hasInvalidL, Bool.or_eq_false_iff] at h
        obtain ⟨s1, hs1⟩ := h1.1 h.1
        obtain ⟨t, ht⟩ := h2.1 h.2
        exact ⟨s1 :: t, by simp [serializeL, hs1, ht]⟩
      · intro h
        cases hx : hasInvalid x with
        | true =>
            obtain ⟨e, he, hne⟩ := h1.2 hx
            exact ⟨e, by simp [serializeL, he], hne⟩
        | false =>
            have hrt : hasInvalidL rest = true := by
              simp only [hasInvalidL, hx, Bool.false_or] at h
              exact h
            obtain ⟨s1, hs1⟩ := h1.1 hx
            obtain ⟨e, he, hne⟩ := h2.2 hrt
            exact ⟨e, by simp [serializeL, hs1, he], hne⟩

/-- serializeO succeeds exactly when no key or value of the object is an
invalid string; failures carry a non-empty message. -/
theorem serializeO_ok_iff (kvs : List (Bytes × JVal)) :
    (hasInvalidO kvs = false → ∃ s, serializeO kvs = .ok s) ∧
    (hasInvalidO kvs = true →
      ∃ e, serializeO kvs = .error e ∧ e ≠ "") := by
  cases kvs with
  | nil =>
      exact ⟨fun _ => ⟨_, rfl⟩, fun h => by simp [hasInvalidO] at h⟩
  | cons kv rest =>
      obtain ⟨k, v⟩ := kv
      have h1 := serializeJ_ok_iff v
      have h2 := serializeO_ok_iff rest
      constructor
      · intro h
        simp only [hasInvalidO, Bool.or_eq_false_iff, Bool.not_eq_false']
          at h
        obtain ⟨⟨hk, hv⟩, hr⟩ := h
        obtain ⟨s1, hs1⟩ := h1.1 hv
        obtain ⟨t, ht⟩ := h2.1 hr
        exact ⟨(serializeString k ++ 58 :: s1) :: t,
          by simp [serializeO, hk, hs1, ht]⟩
      · intro h
        cases hk : utf8Valid k with
        | false =>
            exact ⟨"invalid UTF-8 byte in object key",
              by simp [serializeO, hk], by decide⟩
        | true =>
            cases hv : hasInvalid v with
            | true =>
                obtain ⟨e, he, hne⟩ := h1.2 hv
                exact ⟨e, by simp [serializeO, hk, he], hne⟩
            | false =>
                have hrt : hasInvalidO rest = true := by
                  simp only [hasInvalidO, hk, hv, Bool.not_true,
                    Bool.false_or] at h
                  exact h
                obtain ⟨s1, hs1⟩ := h1.1 hv
                obtain ⟨e, he, hne⟩ := h2.2 hrt
                exact ⟨e, by simp [serializeO, hk, hs1, he], hne⟩

end

/-- C9: dump fails exactly when the subtree contains a string that is not
valid UTF-8 at serialization time; on failure the result value is the
empty string and the message is non-empty; on success the serialized text
is returned. -/
theorem C9_dump (j : JVal) :
    ((JSON.dump j).good = false ↔ hasInvalid j = true) ∧
    (hasInvalid j = true →
      (JSON.dump j).value = [] ∧ (JSON.dump j).failure ≠ "") ∧
    (hasInvalid j = false →
      ∃ s, serializeJ j = .ok s ∧ JSON.dump j = ok s) := by
  have hj := serializeJ_ok_iff j
  by_cases hv : hasInvalid j = true
  · obtain ⟨e, he, hne⟩ := hj.2 hv
    refine ⟨by simp [JSON.dump, he, hv], fun _ => ⟨by simp [JSON.dump, he], ?_⟩,
      fun hf => absurd hv (by simp [hf])⟩
    simp only [JSON.dump, he]
    exact hne
  · have hv2 : hasInvalid j = false := by simpa using hv
    obtain ⟨s, hs⟩ := hj.1 hv2
    exact ⟨by simp [JSON.dump, hs, ok, hv2], fun ht => absurd ht hv,
      fun _ => ⟨s, hs, by simp [JSON.dump, hs, ok]⟩⟩

/-- C9 witness: dump of a lone invalid-UTF-8 string fails with an empty
value and a populated message; dump of the null document returns the
serialized text. -/
theorem C9_witness :
    ((JSON.dump (JVal.str [255])).value = [] ∧
      (JSON.dump (JVal.str [255])).failure ≠ "") ∧
    (∃ s, serializeJ JVal.null = .ok s ∧ JSON.dump JVal.null = ok s) :=
  ⟨(C9_dump (JVal.str [255])).2.1 (by decide),
    (C9_dump JVal.null).2.2 (by decide)⟩

/-- C10: set_value_at on a default-constructed (null) JSON succeeds,
converting the receiver into an object that contains the key mapped to
the moved-in value. -/
theorem C10_set_value_at_null_receiver (key : Bytes) (v : JVal) :
    (JSON.set_value_at JVal.null key v).1.good = true ∧
    JSON.is_object (JSON.set_value_at JVal.null key v).2.1 = true ∧
    ∃ kvs, (JSON.set_value_at JVal.null key v).2.1 = JVal.obj kvs ∧
      lookupKey kvs key = some v :=
  ⟨rfl, rfl, setKey [] key v, rfl, lookupKey_setKey_self _ _ _⟩

end MkJson
